import Mathlib

/-!
Shallow embedding of `local_visualizer/local_visualizer.py`.

The program maintains a single HTML output file that grows by appends.
We model the content of that one output file directly: a `String` for its
byte content, or an `Option String` where `none` means the file is absent
from the filesystem.  Every `HtmlGenerator` method is translated to a pure
function on the file content; the `LocalViz` session facade is translated
to a state machine over `SessionState`.  Exceptions raised by the Python
code are modelled with the explicit error type `PyError`.
-/

/-- Exceptions the modelled Python code can raise:
`AttributeError` (attribute lookup on an object that lacks it, carrying the
attribute name), `RuntimeError` (raised by the `validate_lviz_started`
decorator, carrying the message), and `OSError` (filesystem errors from
`os.remove`, carrying the kind). -/
inductive PyError where
  | attributeError (name : String)
  | runtimeError (msg : String)
  | osError (kind : String)
deriving DecidableEq, Repr

/-- The constant `HEADER_LEVELS = range(1, 6)` of the source: the levels for
which the `h1` .. `h5` shortcut methods are generated. -/
def HEADER_LEVELS : List Nat := List.range' 1 5

/-- The constant `HTML_BEGIN_BOILERPLATE` of the source (a Python
triple-quoted string: the value starts with a newline and ends right after
the `<body>` line's newline). -/
def HTML_BEGIN_BOILERPLATE : String :=
  "\n<!DOCTYPE html>\n<html>\n    <head>\n        <meta charset=\"UTF-8\">\n        <title>Local Visualizer</title>\n        <style>\n            body \x7b\n                -webkit-font-smoothing: antialiased;\n                -webkit-text-size-adjust: none;\n                margin: 50px !important;\n                font-size:20px;\n                font-family:Helvetica, sans-serif;\n                font-weight: 100;\n            \x7d\n            table.dataframe \x7b\n                border-collapse: collapse;\n                border: none;\n            \x7d\n            table.dataframe tr \x7b\n                border: none;\n            \x7d\n            table.dataframe td, table.dataframe th \x7b\n                margin: 2px;\n                border: 1px solid white;\n                padding-left: 0.25em;\n                padding-right: 0.25em;\n            \x7d\n            table.dataframe th:not(:empty) \x7b\n                background-color: #fec;\n                text-align: left;\n                font-weight: 100;\n            \x7d\n            table.dataframe tr:nth-child(2) th:empty \x7b\n                border-left: none;\n                border-right: 1px dashed #888;\n            \x7d\n            table.dataframe td \x7b\n                border: 2px solid #ccf;\n                background-color: #f4f4ff;\n            \x7d\n        </style>\n    </head>\n    <body>\n"

/-- The constant `HTML_END_BOILERPLATE` of the source. -/
def HTML_END_BOILERPLATE : String :=
  "\n    </body>\n    </html>\n"

/-- The argument of `HtmlGenerator.write`: either a plain string, or a pandas
dataframe, which the source only uses through its `to_html()` rendering (the
model carries that rendered markup). -/
inductive TextOrDf where
  | str (s : String)
  | df (renderedHtml : String)
deriving DecidableEq, Repr

/-- The `text` local of `HtmlGenerator.write`: the string itself, or the
dataframe's `to_html()` markup. -/
def renderWriteArg : TextOrDf → String
  | .str s => s
  | .df renderedHtml => renderedHtml

/-- The method `HtmlGenerator.write`: opens the output file in append mode
(`'a+'`, creating it when absent, never truncating) and appends
`'\x7bs\x7d\n'.format(s=text)`, i.e. the rendered text followed by one newline. -/
def HtmlGenerator.write (arg : TextOrDf) (file : String) : String :=
  file ++ (renderWriteArg arg ++ "\n")

/-- The method `HtmlGenerator.header`: one `write` of
`'<h\x7blvl\x7d>\x7btext\x7d</h\x7blvl\x7d>'`. The method body performs no validation of
`level`. -/
def HtmlGenerator.header (text : String) (level : Nat) (file : String) : String :=
  HtmlGenerator.write
    (.str ("<h" ++ toString level ++ ">" ++ text ++ "</h" ++ toString level ++ ">")) file

/-- The method `HtmlGenerator.p`: one `write` of `'<p>\x7bt\x7d</p>'`. -/
def HtmlGenerator.p (text : String) (file : String) : String :=
  HtmlGenerator.write (.str ("<p>" ++ text ++ "</p>")) file

/-- The method `HtmlGenerator.br`: one `write` of `'<br/>'`. -/
def HtmlGenerator.br (file : String) : String :=
  HtmlGenerator.write (.str "<br/>") file

/-- The method `HtmlGenerator.hr`: one `write` of `'<br/><hr/><br/>'`. -/
def HtmlGenerator.hr (file : String) : String :=
  HtmlGenerator.write (.str "<br/><hr/><br/>") file

/-- The constructor `HtmlGenerator.__init__` restricted to its file effect:
it calls `self.write(HTML_BEGIN_BOILERPLATE)`, an append to whatever content
`prior` the path already holds (`write` opens with mode `'a+'`). -/
def htmlGeneratorInit (prior : String) : String :=
  HtmlGenerator.write (.str HTML_BEGIN_BOILERPLATE) prior

/-- The file content produced by the preamble write on a fresh (empty) file:
`HTML_BEGIN_BOILERPLATE` followed by the newline `write` appends. -/
def writtenPreamble : String := HTML_BEGIN_BOILERPLATE ++ "\n"

/-- The file content appended by `LocalViz.close`: `HTML_END_BOILERPLATE`
followed by the newline `write` appends. -/
def writtenClosing : String := HTML_END_BOILERPLATE ++ "\n"

/-- The standard base64 alphabet used by `base64.b64encode` (RFC 4648,
indices 0 to 63). -/
def B64_ALPHABET : String :=
  "ABCDEFGHIJKLMNOPQRSTUVWXYZabcdefghijklmnopqrstuvwxyz0123456789+/"

/-- The base64 digit for a 6-bit index (out-of-range indices cannot arise
from byte input; `getD` makes the function total). -/
def b64Char (n : Nat) : Char := B64_ALPHABET.toList.getD n 'A'

/-- The character stream of `base64.b64encode`: each group of 3 input bytes
becomes 4 digits; a trailing group of 1 byte becomes 2 digits and `==`, of
2 bytes becomes 3 digits and `=`. -/
def base64EncodeChars : List Nat → List Char
  | [] => []
  | [a] => [b64Char (a / 4), b64Char (a % 4 * 16), '=', '=']
  | [a, b] => [b64Char (a / 4), b64Char (a % 4 * 16 + b / 16), b64Char (b % 16 * 4), '=']
  | a :: b :: c :: rest =>
      b64Char (a / 4) :: b64Char (a % 4 * 16 + b / 16) ::
        b64Char (b % 16 * 4 + c / 64) :: b64Char (c % 64) :: base64EncodeChars rest

/-- The composition `base64.b64encode(...).decode('ascii')` of the source:
the PNG buffer's bytes rendered as a base64 string. -/
def base64Encode (bytes : List Nat) : String := String.mk (base64EncodeChars bytes)

/-- Whether a character is a base64 digit. -/
def isB64Char (c : Char) : Bool := B64_ALPHABET.toList.contains c

/-- Syntactic validity of a base64 character stream: 4-character groups of
digits, where only the final group may end in `=` or `==`. -/
def isValidB64Chunks : List Char → Bool
  | [] => true
  | [a, b, c, d] =>
      isB64Char a && isB64Char b &&
        ((c == '=' && d == '=') || (isB64Char c && (d == '=' || isB64Char d)))
  | a :: b :: c :: d :: rest =>
      isB64Char a && isB64Char b && isB64Char c && isB64Char d && isValidB64Chunks rest
  | _ => false

/-- Syntactic validity of a base64 string. -/
def isValidB64 (s : String) : Bool := isValidB64Chunks s.toList

/-- The `<img ...>` markup written by `HtmlGenerator.figure` after the body
of the `with` block finishes: a base64 PNG data URI at a fixed display width
of 500 pixels, followed by a line break. -/
def imgText (figPng : String) : String :=
  "<img src=\"data:image/png;base64," ++ figPng ++ "\" width=\"500\"><br/>"

/-- The context manager `HtmlGenerator.figure`.  `bodyError` is the outcome
of the caller's drawing code inside the `with` block (`none` when it returns
normally, `some e` when it raises `e`); `pngBytes` is the byte content the
plotting library's `savefig` puts into the PNG buffer.  There is no
`try/finally` around the `yield`, so on a raising body the code after the
`yield` never runs: nothing is written and the exception propagates.  On a
normal exit the buffer is base64-encoded and one `write` of the `<img>`
markup happens.  Returns the file content and the propagated exception. -/
def HtmlGenerator.figure (bodyError : Option PyError) (pngBytes : List Nat)
    (file : String) : String × Option PyError :=
  match bodyError with
  | some e => (file, some e)
  | none => (HtmlGenerator.write (.str (imgText (base64Encode pngBytes))) file, none)

/-- One content-producing call forwarded to the `HtmlGenerator` (the public
writer methods copied onto the `LocalViz` instance by `start`).  The
`figure` case is the normal-exit path of the context manager, carrying the
PNG buffer bytes; the raising path is settled on `HtmlGenerator.figure`
directly. -/
inductive HtmlOp where
  | header (text : String) (level : Nat)
  | p (text : String)
  | br
  | hr
  | figure (pngBytes : List Nat)
  | write (arg : TextOrDf)
deriving DecidableEq, Repr

/-- Python attribute name of each forwarded writer method. -/
def HtmlOp.methodName : HtmlOp → String
  | .header _ _ => "header"
  | .p _ => "p"
  | .br => "br"
  | .hr => "hr"
  | .figure _ => "figure"
  | .write _ => "write"

/-- Effect of one writer call on the output file content, dispatching to
the translated `HtmlGenerator` methods. -/
def applyOp : HtmlOp → String → String
  | .header t lvl, file => HtmlGenerator.header t lvl file
  | .p t, file => HtmlGenerator.p t file
  | .br, file => HtmlGenerator.br file
  | .hr, file => HtmlGenerator.hr file
  | .figure pngBytes, file => (HtmlGenerator.figure none pngBytes file).1
  | .write arg, file => HtmlGenerator.write arg file

/-- Effect of a sequence of writer calls, in call order. -/
def applyOps (ops : List HtmlOp) (file : String) : String :=
  ops.foldl (fun f op => applyOp op f) file

/-- The single string each writer call passes to `write` (bar the trailing
newline `write` itself adds). -/
def HtmlOp.writtenText : HtmlOp → String
  | .header t lvl => "<h" ++ toString lvl ++ ">" ++ t ++ "</h" ++ toString lvl ++ ">"
  | .p t => "<p>" ++ t ++ "</p>"
  | .br => "<br/>"
  | .hr => "<br/><hr/><br/>"
  | .figure pngBytes => imgText (base64Encode pngBytes)
  | .write arg => renderWriteArg arg

/-- The discrete HTML fragments a writer call appends (the spec's notion of
fragment): `hr` is three fragments in one write, `figure` is an image
fragment and a break fragment in one write, every other call is one
fragment. -/
def HtmlOp.fragments : HtmlOp → List String
  | .header t lvl => ["<h" ++ toString lvl ++ ">" ++ t ++ "</h" ++ toString lvl ++ ">"]
  | .p t => ["<p>" ++ t ++ "</p>"]
  | .br => ["<br/>"]
  | .hr => ["<br/>", "<hr/>", "<br/>"]
  | .figure pngBytes =>
      ["<img src=\"data:image/png;base64," ++ base64Encode pngBytes ++ "\" width=\"500\">",
       "<br/>"]
  | .write arg => [renderWriteArg arg]

/-- The concatenation of rendered writes, one per call, each terminated by
the newline `write` appends. -/
def joinWrites : List HtmlOp → String
  | [] => ""
  | op :: rest => (op.writtenText ++ "\n") ++ joinWrites rest

/-- The message of the `RuntimeError` raised by the decorator
`validate_lviz_started` for a method named `f`. -/
def invalidStateMessage (f : String) : String :=
  f ++ " was called before LocalViz was started. Please start the visualizer " ++
    "with the `start` method."

/-- State of a `LocalViz` session over its single output path:
`file` is the path's content (`none` when the file is absent),
`isStarted` is the `is_started` flag, and `hasWriterMethods` records
whether `start` has copied the `HtmlGenerator` methods onto the instance
(before that, calling `p`, `header`, ... raises `AttributeError`).  The
model fixes `run_server=False` and an explicit caller-supplied `html_file`
path, as the claims do; the background server never touches the file. -/
structure SessionState where
  file : Option String
  isStarted : Bool
  hasWriterMethods : Bool
deriving DecidableEq, Repr

/-- A freshly constructed `LocalViz(lazy=True, html_file=path,
run_server=False)` over a path whose current content is `prior`. -/
def lazySession (prior : Option String) : SessionState :=
  ⟨prior, false, false⟩

/-- The method `LocalViz.start` (with `run_server=False` and an explicit
`html_file`): `open(self.html_file, 'w').close()` truncates or creates the
path, `HtmlGenerator(output_fl=...)` then appends the begin boilerplate,
the generator's public methods are copied onto the instance, and
`is_started` is set.  There is no guard against calling it again. -/
def LocalViz.start (_s : SessionState) : SessionState :=
  ⟨some (htmlGeneratorInit ""), true, true⟩

/-- The model of `os.remove` on one path: raises `FileNotFoundError` when
the file is absent, `PermissionError` when `permitted` is false, and
removes the file otherwise (both errors are subclasses of `OSError`). -/
def osRemove (file : Option String) (permitted : Bool) :
    Except PyError (Option String) :=
  match file with
  | none => .error (.osError "FileNotFoundError")
  | some _ => if permitted then .ok none else .error (.osError "PermissionError")

/-- The function `delete_files_silently`: for each file it tries
`os.remove` and swallows `OSError` (`except OSError: pass`), leaving the
file state as the filesystem left it; any non-`OSError` exception would
propagate out of the loop.  Each list entry carries the path's content and
whether the filesystem permits its removal; the result is the list of file
states after the loop. -/
def delete_files_silently :
    List (Option String × Bool) → Except PyError (List (Option String))
  | [] => .ok []
  | fp :: rest =>
      match osRemove fp.1 fp.2 with
      | .ok f =>
          match delete_files_silently rest with
          | .ok l => .ok (f :: l)
          | .error e => .error e
      | .error (.osError _) =>
          match delete_files_silently rest with
          | .ok l => .ok (fp.1 :: l)
          | .error e => .error e
      | .error e => .error e

/-- Result of the first delete outcome for the session's single file. -/
def deleteFileSilently (file : Option String) (permitted : Bool) : Option String :=
  match osRemove file permitted with
  | .ok f => f
  | .error _ => file

/-- One call on the session facade.  `delHtml` carries the filesystem's
permission to remove the file (the environment's choice). -/
inductive SessionOp where
  | start
  | informCleanup
  | close
  | delHtml (permitted : Bool)
  | content (op : HtmlOp)
deriving DecidableEq, Repr

/-- State after a call together with the exception it raised, if any; on an
exception the state is the state at the raise point. -/
structure CallResult where
  state : SessionState
  error : Option PyError
deriving DecidableEq, Repr

/-- Dispatch of one call on a `LocalViz` instance.  `inform_cleanup`,
`close` and `del_html` are decorated with `validate_lviz_started`, which
raises `RuntimeError` before any effect when `is_started` is false.  The
writer methods are instance attributes only after `start` has copied them;
before that, attribute lookup itself raises `AttributeError` naming the
method, and no file write happens.  After the copy they are the
`HtmlGenerator`'s bound methods, which perform no started-check of their
own. -/
def SessionState.call (s : SessionState) : SessionOp → CallResult
  | .start => ⟨LocalViz.start s, none⟩
  | .informCleanup =>
      if s.isStarted then ⟨s, none⟩
      else ⟨s, some (.runtimeError (invalidStateMessage "inform_cleanup"))⟩
  | .close =>
      if s.isStarted then
        ⟨{ s with file := some (HtmlGenerator.write (.str HTML_END_BOILERPLATE)
            (s.file.getD "")) }, none⟩
      else ⟨s, some (.runtimeError (invalidStateMessage "close"))⟩
  | .delHtml permitted =>
      if s.isStarted then
        ⟨{ s with file := deleteFileSilently s.file permitted }, none⟩
      else ⟨s, some (.runtimeError (invalidStateMessage "del_html"))⟩
  | .content op =>
      if s.hasWriterMethods then
        ⟨{ s with file := some (applyOp op (s.file.getD "")) }, none⟩
      else ⟨s, some (.attributeError op.methodName)⟩

/-- Run a call sequence, stopping at the first exception. -/
def runOps : SessionState → List SessionOp → CallResult
  | s, [] => ⟨s, none⟩
  | s, op :: rest =>
      let r := s.call op
      match r.error with
      | some _ => r
      | none => runOps r.state rest

/-! ## Helper lemmas -/

/-- Every writer call appends exactly its rendered text plus one newline. -/
theorem applyOp_eq (op : HtmlOp) (file : String) :
    applyOp op file = file ++ (op.writtenText ++ "\n") := by
  cases op <;> rfl

/-- On an empty file the constructor's write leaves exactly the preamble. -/
theorem preamble_init : htmlGeneratorInit "" = writtenPreamble :=
  String.empty_append _

/-- Unfolding of `applyOps` on sequences. -/
theorem applyOps_eq (ops : List HtmlOp) (file : String) :
    applyOps ops file = file ++ joinWrites ops := by
  induction ops generalizing file with
  | nil => exact (String.append_empty file).symm
  | cons op rest ih =>
      show applyOps rest (applyOp op file) = _
      rw [ih, applyOp_eq]
      simp only [joinWrites]
      rw [String.append_assoc]

/-- Every base64 digit the encoder emits is in the alphabet. -/
theorem b64Char_isB64 (n : Nat) : isB64Char (b64Char n) = true := by
  have h64 : ∀ m : Fin 64, isB64Char (b64Char m.val) = true := by decide
  by_cases h : n < 64
  · exact h64 ⟨n, h⟩
  · have hd : b64Char n = 'A' := by
      unfold b64Char
      apply List.getD_eq_default
      have hl : B64_ALPHABET.toList.length = 64 := by decide
      omega
    rw [hd]; decide

/-- The encoder's character stream is syntactically valid base64. -/
theorem isValidB64Chunks_encode :
    ∀ (bytes : List Nat), isValidB64Chunks (base64EncodeChars bytes) = true
  | [] => rfl
  | [a] => by simp [base64EncodeChars, isValidB64Chunks, b64Char_isB64]
  | [a, b] => by simp [base64EncodeChars, isValidB64Chunks, b64Char_isB64]
  | a :: b :: c :: rest => by
      have ih := isValidB64Chunks_encode rest
      simp only [base64EncodeChars]
      cases hrest : base64EncodeChars rest with
      | nil => simp [isValidB64Chunks, b64Char_isB64]
      | cons e es =>
          rw [hrest] at ih
          simp [isValidB64Chunks, b64Char_isB64, ih]

/-- Running the C1 scenario shape with abstract texts. -/
theorem run_start_header_p_close (t1 t2 : String) (lvl : Nat) (prior : Option String) :
    runOps (lazySession prior)
        [.start, .content (.header t1 lvl), .content (.p t2), .close]
      = ⟨⟨some (htmlGeneratorInit ""
            ++ (("<h" ++ toString lvl ++ ">" ++ t1 ++ "</h" ++ toString lvl ++ ">") ++ "\n")
            ++ (("<p>" ++ t2 ++ "</p>") ++ "\n")
            ++ (HTML_END_BOILERPLATE ++ "\n")), true, true⟩, none⟩ := rfl

/-- Running start followed by one paragraph with abstract text. -/
theorem run_start_p (t : String) (prior : Option String) :
    runOps (lazySession prior) [.start, .content (.p t)]
      = ⟨⟨some (htmlGeneratorInit "" ++ (("<p>" ++ t ++ "</p>") ++ "\n")), true, true⟩,
          none⟩ := rfl

/-! ## Claim theorems -/

/-- C1: for a session started with `run_server=False` and an explicit output
path, the call sequence `header('X', 3)`, `p('hello')`, `close()` leaves the
file equal to the written preamble, then `<h3>X</h3>` plus newline, then
`<p>hello</p>` plus newline, then the written closing fragment; no call
raises. -/
theorem claim_c1_end_to_end :
    runOps (lazySession none)
        [.start, .content (.header "X" 3), .content (.p "hello"), .close]
      = ⟨⟨some (writtenPreamble ++ "<h3>X</h3>\n" ++ "<p>hello</p>\n" ++ writtenClosing),
          true, true⟩, none⟩ := by
  rw [run_start_header_p_close, preamble_init]
  rw [(by decide :
    (("<h" ++ toString (3 : Nat) ++ ">" ++ "X" ++ "</h" ++ toString (3 : Nat) ++ ">")
      ++ "\n" : String) = "<h3>X</h3>\n")]
  rw [(by decide : (("<p>" ++ "hello" ++ "</p>") ++ "\n" : String) = "<p>hello</p>\n")]
  rfl

/-- C2: after construction on a fresh file, any sequence of `N` append
operations leaves the file equal to the written preamble followed by the `N`
rendered writes in call order, each newline-terminated; and every single
append operation only extends the existing content by a suffix (nothing is
rewritten, removed or reordered). -/
theorem claim_c2_append_only (ops : List HtmlOp) (op : HtmlOp) (file : String) :
    applyOps ops (htmlGeneratorInit "") = writtenPreamble ++ joinWrites ops ∧
    ∃ suffix, applyOp op file = file ++ suffix := by
  refine ⟨?_, ⟨op.writtenText ++ "\n", applyOp_eq op file⟩⟩
  rw [applyOps_eq, preamble_init]

/-- C3 counterexample: constructing the `HtmlGenerator` against a path whose
prior content is `"junk"` does not truncate it — the resulting file differs
from the bare written preamble the claim promises. -/
theorem claim_c3_counterexample : htmlGeneratorInit "junk" ≠ writtenPreamble := by
  intro h
  have hj : htmlGeneratorInit "junk" = "junk" ++ writtenPreamble := rfl
  have hlen := congrArg String.length h
  rw [hj, String.length_append] at hlen
  have h4 : "junk".length = 4 := rfl
  omega

/-- C3 amended: the `HtmlGenerator` constructor appends the fixed preamble
to the path's prior content (its `write` opens in append mode); hence the
file contains exactly the preamble only when the prior content is empty,
which `LocalViz.start` guarantees for a caller-supplied path by truncating
it before constructing the writer. -/
theorem claim_c3_appends_preamble (prior : String) :
    htmlGeneratorInit prior = prior ++ writtenPreamble ∧
    htmlGeneratorInit "" = writtenPreamble ∧
    LocalViz.start (lazySession (some prior)) = ⟨some writtenPreamble, true, true⟩ := by
  refine ⟨rfl, preamble_init, ?_⟩
  rw [← preamble_init]
  rfl

/-- C4 counterexample: calling the content operation `p` on an unstarted
session raises `AttributeError('p')` — an attribute-lookup failure, not the
invalid-state `RuntimeError` the claim promises — and leaves the file
untouched. -/
theorem claim_c4_counterexample :
    ((lazySession none).call (.content (.p "hello"))).error
        = some (.attributeError "p") ∧
    PyError.attributeError "p" ≠ PyError.runtimeError (invalidStateMessage "p") ∧
    ((lazySession none).call (.content (.p "hello"))).state = lazySession none :=
  ⟨rfl, fun h => PyError.noConfusion h, rfl⟩

/-- C4 amended: on an unstarted session every operation fails without
writing: the guarded session methods (`close`, `inform_cleanup`,
`del_html`) raise the invalid-state `RuntimeError` naming the operation,
while the writer-forwarded content operations do not exist yet and raise
`AttributeError` naming the operation; in every case the state (and hence
the file) is unchanged. -/
theorem claim_c4_unstarted_errors (fo : Option String) (op : HtmlOp) (perm : Bool) :
    (SessionState.mk fo false false).call (.content op)
      = ⟨⟨fo, false, false⟩, some (.attributeError op.methodName)⟩ ∧
    (SessionState.mk fo false false).call .close
      = ⟨⟨fo, false, false⟩, some (.runtimeError (invalidStateMessage "close"))⟩ ∧
    (SessionState.mk fo false false).call .informCleanup
      = ⟨⟨fo, false, false⟩, some (.runtimeError (invalidStateMessage "inform_cleanup"))⟩ ∧
    (SessionState.mk fo false false).call (.delHtml perm)
      = ⟨⟨fo, false, false⟩, some (.runtimeError (invalidStateMessage "del_html"))⟩ :=
  ⟨rfl, rfl, rfl, rfl⟩

/-- C5 counterexample: `header` accepts the out-of-range level 9 and appends
a `<h9>` fragment instead of rejecting it — the level argument is not
constrained to 1-5. -/
theorem claim_c5_counterexample :
    applyOp (.header "x" 9) "" = "<h9>x</h9>\n" ∧ ¬ (9 ∈ HEADER_LEVELS) := by
  exact ⟨by decide, by decide⟩

/-- C5 amended: for every level in `HEADER_LEVELS` (exactly 1-5, the levels
with generated `hN` shortcuts), `header(t, lvl)` appends exactly one
fragment, a level-`lvl` heading wrapping `t` verbatim, followed by the
newline separator; `header` itself performs no validation of the level. -/
theorem claim_c5_header_levels (t : String) (lvl : Nat) (file : String)
    (h : lvl ∈ HEADER_LEVELS) :
    (HtmlOp.header t lvl).fragments
      = ["<h" ++ toString lvl ++ ">" ++ t ++ "</h" ++ toString lvl ++ ">"] ∧
    applyOp (.header t lvl) file
      = file ++ (("<h" ++ toString lvl ++ ">" ++ t ++ "</h" ++ toString lvl ++ ">") ++ "\n") ∧
    HEADER_LEVELS = [1, 2, 3, 4, 5] :=
  ⟨rfl, rfl, by decide⟩

/-- C5 witness: the amended header claim at `t = "T"`, `lvl = 2`, empty
file. -/
theorem claim_c5_header_levels_witness :
    (HtmlOp.header "T" 2).fragments
      = ["<h" ++ toString (2 : Nat) ++ ">" ++ "T" ++ "</h" ++ toString (2 : Nat) ++ ">"] ∧
    applyOp (.header "T" 2) ""
      = "" ++ (("<h" ++ toString (2 : Nat) ++ ">" ++ "T" ++ "</h" ++ toString (2 : Nat) ++ ">")
          ++ "\n") ∧
    HEADER_LEVELS = [1, 2, 3, 4, 5] :=
  claim_c5_header_levels "T" 2 "" (by decide)

/-- C6: `hr` appends exactly the three fragments break, horizontal rule,
break, in that order, as one single write of their concatenation followed
by one newline separator. -/
theorem claim_c6_rule (file : String) :
    (HtmlOp.hr).fragments = ["<br/>", "<hr/>", "<br/>"] ∧
    String.join (HtmlOp.hr).fragments = (HtmlOp.hr).writtenText ∧
    HtmlGenerator.hr file = file ++ ((HtmlOp.hr).writtenText ++ "\n") :=
  ⟨rfl, by decide, rfl⟩

/-- C7: on a normal exit of the figure scope exactly one write happens,
consisting of exactly one `<img>` fragment whose source is the fixed PNG
data-URI scheme followed by a syntactically valid base64 payload, at the
fixed display width 500, followed by a line-break fragment; when the
caller's drawing body raises, nothing is written and the exception
propagates. -/
theorem claim_c7_figure (pngBytes : List Nat) (file : String) (e : PyError) :
    HtmlGenerator.figure none pngBytes file
      = (file ++ (imgText (base64Encode pngBytes) ++ "\n"), none) ∧
    (HtmlOp.figure pngBytes).fragments
      = ["<img src=\"data:image/png;base64," ++ base64Encode pngBytes ++ "\" width=\"500\">",
         "<br/>"] ∧
    imgText (base64Encode pngBytes)
      = ("<img src=\"data:image/png;base64," ++ base64Encode pngBytes ++ "\" width=\"500\">")
          ++ "<br/>" ∧
    isValidB64 (base64Encode pngBytes) = true ∧
    HtmlGenerator.figure (some e) pngBytes file = (file, some e) := by
  refine ⟨rfl, rfl, ?_, isValidB64Chunks_encode pngBytes, rfl⟩
  show ("<img src=\"data:image/png;base64," ++ base64Encode pngBytes)
      ++ "\" width=\"500\"><br/>" = _
  rw [(by decide : ("\" width=\"500\"><br/>" : String) = "\" width=\"500\">" ++ "<br/>")]
  rw [← String.append_assoc]

/-- C8: on a started session every `close` call appends the closing
fragment to the current content, so two `close` calls append it twice (the
operation is not idempotent: the second call grows the file again by the
closing fragment). -/
theorem claim_c8_close_twice (fo : Option String) (m : Bool) :
    (SessionState.mk fo true m).call .close
      = ⟨⟨some (fo.getD "" ++ writtenClosing), true, m⟩, none⟩ ∧
    runOps ⟨fo, true, m⟩ [.close, .close]
      = ⟨⟨some ((fo.getD "" ++ writtenClosing) ++ writtenClosing), true, m⟩, none⟩ ∧
    (fo.getD "" ++ writtenClosing) ++ writtenClosing ≠ fo.getD "" ++ writtenClosing := by
  refine ⟨rfl, rfl, ?_⟩
  intro h
  have hlen := congrArg String.length h
  rw [String.length_append, String.length_append] at hlen
  have hw : writtenClosing.length = 26 := by decide
  omega

/-- C9: `delete_files_silently` never raises — for every combination of
file states (present or missing) and permission outcomes it returns
normally, every `OSError` from `os.remove` being swallowed; accordingly
`del_html` on a started session raises nothing for any outcome of the
delete. -/
theorem claim_c9_delete_silently (files : List (Option String × Bool))
    (fo : Option String) (perm m : Bool) :
    (∃ l, delete_files_silently files = Except.ok l) ∧
    ((SessionState.mk fo true m).call (.delHtml perm)).error = none := by
  refine ⟨?_, rfl⟩
  induction files with
  | nil => exact ⟨[], rfl⟩
  | cons fp rest ih =>
      obtain ⟨l, hl⟩ := ih
      obtain ⟨f, p⟩ := fp
      cases f with
      | none => exact ⟨none :: l, by simp [delete_files_silently, osRemove, hl]⟩
      | some s =>
          cases p with
          | true => exact ⟨none :: l, by simp [delete_files_silently, osRemove, hl]⟩
          | false => exact ⟨some s :: l, by simp [delete_files_silently, osRemove, hl]⟩

/-- C10: `start` has no started-state guard and is not idempotent: from any
session state it truncates the output file and leaves exactly the written
preamble; in particular running `start`, `p('hello')`, `start` erases the
paragraph fragment that the first two calls had produced. -/
theorem claim_c10_start_not_idempotent (s : SessionState) (prior : Option String) :
    s.call .start = ⟨⟨some writtenPreamble, true, true⟩, none⟩ ∧
    runOps (lazySession prior) [.start, .content (.p "hello")]
      = ⟨⟨some (writtenPreamble ++ "<p>hello</p>\n"), true, true⟩, none⟩ ∧
    runOps (lazySession prior) [.start, .content (.p "hello"), .start]
      = ⟨⟨some writtenPreamble, true, true⟩, none⟩ ∧
    writtenPreamble ++ "<p>hello</p>\n" ≠ writtenPreamble := by
  refine ⟨?_, ?_, ?_, ?_⟩
  · rw [← preamble_init]
    rfl
  · rw [run_start_p, preamble_init,
      (by decide : (("<p>" ++ "hello" ++ "</p>") ++ "\n" : String) = "<p>hello</p>\n")]
  · rw [← preamble_init]
    rfl
  · intro h
    have hlen := congrArg String.length h
    rw [String.length_append] at hlen
    have hp : ("<p>hello</p>\n").length = 13 := rfl
    omega
